import Mathlib

/-!
Verification of the user/role/admin data model and handler logic of the
crypto_analyzer_bot repository.

The embedding models the SQLAlchemy schema of `src/services/database.py`
(tables as lists of rows, column defaults as Lean defaults) and the
handlers of `main.py` (`start_command`, `admin_command`,
`create_first_admins`) as pure state-transition functions on a `DBState`.
Float-typed columns carry no arithmetic in the modelled claims, so they
are represented by `Int` stand-ins; datetime columns that no claim
mentions are either dropped or represented by `Nat`.

`DatabaseManager` (the CRUD layer behind `db.*` calls in `main.py`) is not
part of the provided sources; its operations are modelled from the spec
where needed, and each such definition is marked `Modelled from the spec:`
in its doc comment.
-/

namespace CryptoBot

/-- `UserType` enum of database.py: GUEST / PREMIUM / BANNED. -/
inductive UserType where
  | GUEST
  | PREMIUM
  | BANNED
  deriving DecidableEq, Repr

/-- `AdminTypes` enum of database.py: MASTER / NORMAL / WATCHER. -/
inductive AdminTypes where
  | MASTER
  | NORMAL
  | WATCHER
  deriving DecidableEq, Repr

/-- `TimeInterval` enum of database.py (1/7/30/90 days). -/
inductive TimeInterval where
  | ONE_DAY
  | SEVEN_DAYS
  | THIRTY_DAYS
  | NINETY_DAYS
  deriving DecidableEq, Repr

/-- A row of the `users` table. Columns kept: `telegram_id` (unique key),
`user_type`, `language`, `preferred_chart_type`, `preferred_timeframe`.
The surrogate integer id and the datetime columns are not used by any
modelled behaviour. -/
structure UserRow where
  telegram_id : String
  user_type : UserType
  language : String
  preferred_chart_type : String
  preferred_timeframe : Nat
  deriving DecidableEq, Repr

/-- A row of the `admins` table: `user_id` (unique FK to users.telegram_id),
`role`, `created_by`, `is_active`. -/
structure AdminRow where
  user_id : String
  role : AdminTypes
  created_by : String
  is_active : Bool
  deriving DecidableEq, Repr

/-- A row of the `coins` table (JSON blobs and datetime omitted). -/
structure CoinRow where
  id : String
  symbol : String
  name : String
  deriving DecidableEq, Repr

/-- A row of the `coin_prices` table; unique key (coin_id, currency).
Float columns are modelled as `Int`. -/
structure CoinPriceRow where
  coin_id : String
  currency : String
  price : Int
  market_cap : Int
  volume_24h : Int
  price_change_24h : Int
  deriving DecidableEq, Repr

/-- A row of the `ohlc` table; unique key (coin_id, timestamp). -/
structure OHLCRow where
  coin_id : String
  vs_currency : String
  interval : TimeInterval
  timestamp : Nat
  close : Int
  deriving DecidableEq, Repr

/-- A row of the `trending_coins` table; unique key coin_id. -/
structure TrendingCoinRow where
  coin_id : String
  rank : Nat
  score : Int
  deriving DecidableEq, Repr

/-- A row of the `user_activities` table (FK user_id -> users.telegram_id,
FK coin_id -> coins.id, both ondelete CASCADE). -/
structure UserActivityRow where
  user_id : String
  coin_id : String
  activity_type : String
  timestamp : Nat
  deriving DecidableEq, Repr

/-- A row of the `admin_activities` table (FK admin_id -> admins.user_id,
ondelete CASCADE). -/
structure AdminActivityRow where
  admin_id : String
  activity_type : String
  target_user_id : Option String
  timestamp : Nat
  deriving DecidableEq, Repr

/-- The database state: one list of rows per table of database.py. -/
structure DBState where
  users : List UserRow
  admins : List AdminRow
  coins : List CoinRow
  coin_prices : List CoinPriceRow
  ohlc : List OHLCRow
  trending_coins : List TrendingCoinRow
  user_activities : List UserActivityRow
  admin_activities : List AdminActivityRow
  deriving DecidableEq, Repr

/-- The state right after `init_db` on a fresh store: every table empty. -/
def emptyDB : DBState :=
  { users := [], admins := [], coins := [], coin_prices := [], ohlc := [],
    trending_coins := [], user_activities := [], admin_activities := [] }

/-- Key predicate for `users.telegram_id` lookups. -/
def userHasId (tid : String) (u : UserRow) : Bool :=
  u.telegram_id == tid

/-- Key predicate for `admins.user_id` lookups. -/
def adminHasId (uid : String) (a : AdminRow) : Bool :=
  a.user_id == uid

/-- Key predicate for the (coin_id, currency) unique key of coin_prices. -/
def priceHasKey (cid cur : String) (r : CoinPriceRow) : Bool :=
  r.coin_id == cid && r.currency == cur

/-- Modelled from the spec: `get_user_by_identity` of the Persistence Layer
(`db.get_user_by_telegram_id` in main.py, implemented in the absent
DatabaseManager): exact-match lookup, no side effects. -/
def get_user_by_telegram_id (st : DBState) (tid : String) : Option UserRow :=
  st.users.find? (userHasId tid)

/-- Modelled from the spec: `get_admin_by_user_id` of the Persistence Layer:
exact-match lookup on admins.user_id. -/
def get_admin_by_user_id (st : DBState) (uid : String) : Option AdminRow :=
  st.admins.find? (adminHasId uid)

/-- A freshly inserted user row, carrying the column defaults of the
`users` table in database.py: `user_type=GUEST`, `language='en'`,
`preferred_chart_type='price'`, `preferred_timeframe=30`. -/
def defaultUser (tid : String) : UserRow :=
  { telegram_id := tid, user_type := UserType.GUEST, language := "en",
    preferred_chart_type := "price", preferred_timeframe := 30 }

/-- Modelled from the spec: `create_user` of the Persistence Layer. main.py
only ever passes `telegram_id`, so the remaining columns take the schema
defaults. The DuplicateKey failure is not modelled because every call site
in main.py guards the call with a lookup first. -/
def create_user (st : DBState) (tid : String) : DBState :=
  { st with users := st.users ++ [defaultUser tid] }

/-- Modelled from the spec: `create_admin` of the Persistence Layer, with
the column defaults of the `admins` table: `role` defaults to NORMAL when
not supplied, `is_active` defaults to true (main.py never supplies it). -/
def create_admin (st : DBState) (uid : String) (role : Option AdminTypes)
    (created_by : String) : DBState :=
  { st with admins := st.admins ++
      [{ user_id := uid, role := role.getD AdminTypes.NORMAL,
         created_by := created_by, is_active := true }] }

/-- Modelled from the spec: `is_authorized` of the Admin Registry. main.py
inlines this check as `admin and admin['is_active']` in `admin_command`. -/
def is_authorized (st : DBState) (tid : String) : Bool :=
  match get_admin_by_user_id st tid with
  | some a => a.is_active
  | none => false

/-- The body of the `for admin_name in admins` loop of
`create_first_admins` in main.py: skip if an Admin row exists, otherwise
ensure the User row and create a MASTER admin created_by "abualmun". -/
def bootstrap_step (st : DBState) (name : String) : DBState :=
  match get_admin_by_user_id st name with
  | some _ => st
  | none =>
    let st1 :=
      match get_user_by_telegram_id st name with
      | some _ => st
      | none => create_user st name
    create_admin st1 name (some AdminTypes.MASTER) "abualmun"

/-- `create_first_admins` of main.py: fold the loop body over the list. -/
def create_first_admins (st : DBState) (admins : List String) : DBState :=
  admins.foldl bootstrap_step st

/-- The hardcoded bootstrap list passed by `admin_command` in main.py. -/
def bootstrapAdmins : List String :=
  ["abualmun", "osmanoor2018", "hooibi"]

/-- The Admin row created for a bootstrap identity. -/
def masterRow (name : String) : AdminRow :=
  { user_id := name, role := AdminTypes.MASTER, created_by := "abualmun",
    is_active := true }

/-- The replies the core decides between (actual text and keyboards belong
to the excluded formatting subsystem). -/
inductive Reply where
  | welcomeMenu
  | noPermission
  | notAuthorized
  | adminMenu
  deriving DecidableEq, Repr

/-- Outcome of one handler invocation: resulting database state, the reply
sent (none when no reply was sent at all), and whether the handler caught
and printed an internal exception. -/
structure HandlerResult where
  state : DBState
  reply : Option Reply
  errorLogged : Bool
  deriving DecidableEq, Repr

/-- The tail of `start_command` in main.py once `user` is bound: reply
no-permission if the user is BANNED, otherwise the welcome text with the
main menu. -/
def start_reply (st : DBState) (u : UserRow) : HandlerResult :=
  if u.user_type = UserType.BANNED then
    { state := st, reply := some Reply.noPermission, errorLogged := false }
  else
    { state := st, reply := some Reply.welcomeMenu, errorLogged := false }

/-- `start_command` of main.py: look the user up; when absent, create it
and look it up again (read-after-write), then dispatch on the ban check.
The final branch corresponds to the re-fetch still returning None, where
the Python would raise un-caught before replying; it is unreachable. -/
def start_command (st : DBState) (tid : String) : HandlerResult :=
  match get_user_by_telegram_id st tid with
  | some u => start_reply st u
  | none =>
    let st1 := create_user st tid
    match get_user_by_telegram_id st1 tid with
    | some u => start_reply st1 u
    | none => { state := st1, reply := none, errorLogged := false }

/-- `admin_command` of main.py. It first runs `create_first_admins` on the
hardcoded list, looks the caller up, and creates a User row when the
lookup missed — but it does not re-fetch, so the local `user` stays None
in that case: `user["telegram_id"]` then raises TypeError inside the
`try`, the bare `except` prints it, and no reply is sent. When the caller
has a User row, the reply is the admin menu for an active admin row and
the not-authorized message otherwise. There is no ban check. -/
def admin_command (st : DBState) (tid : String) : HandlerResult :=
  let st1 := create_first_admins st bootstrapAdmins
  match get_user_by_telegram_id st1 tid with
  | none =>
    { state := create_user st1 tid, reply := none, errorLogged := true }
  | some u =>
    match get_admin_by_user_id st1 u.telegram_id with
    | some a =>
      if a.is_active then
        { state := st1, reply := some Reply.adminMenu, errorLogged := false }
      else
        { state := st1, reply := some Reply.notAuthorized, errorLogged := false }
    | none =>
      { state := st1, reply := some Reply.notAuthorized, errorLogged := false }

/-- Modelled from the spec: the Persistence Layer upsert for CoinPrice on
its declared unique key (coin_id, currency): update the matching row when
one exists, insert otherwise. -/
def upsert_coin_price (st : DBState) (cp : CoinPriceRow) : DBState :=
  if st.coin_prices.any (priceHasKey cp.coin_id cp.currency) then
    { st with coin_prices :=
        (st.coin_prices.map
          (fun r => if priceHasKey cp.coin_id cp.currency r then cp else r)) }
  else
    { st with coin_prices := st.coin_prices ++ [cp] }

/-- Modelled from the spec: the Persistence Layer delete for a Coin,
applying the cascade declarations of database.py: `prices`, `ohlc_data`
and `trending_data` relationships carry `cascade='all, delete-orphan'` and
the child FKs carry `ondelete='CASCADE'`; `user_activities.coin_id` also
references coins.id with `ondelete='CASCADE'`. -/
def delete_coin (st : DBState) (cid : String) : DBState :=
  { st with
    coins := st.coins.filter (fun c => c.id != cid),
    coin_prices := st.coin_prices.filter (fun p => p.coin_id != cid),
    ohlc := st.ohlc.filter (fun o => o.coin_id != cid),
    trending_coins := st.trending_coins.filter (fun t => t.coin_id != cid),
    user_activities := st.user_activities.filter (fun a => a.coin_id != cid) }

/-- Modelled from the spec: the Persistence Layer delete for a User,
applying the cascade declarations of database.py: `activities` carries
`cascade='all, delete-orphan'`; `admins.user_id` and
`user_activities.user_id` reference users.telegram_id with
`ondelete='CASCADE'`, and the cascade chains from the deleted admin row to
its admin_activities. -/
def delete_user (st : DBState) (tid : String) : DBState :=
  { st with
    users := st.users.filter (fun u => u.telegram_id != tid),
    user_activities := st.user_activities.filter (fun a => a.user_id != tid),
    admins := st.admins.filter (fun a => a.user_id != tid),
    admin_activities := st.admin_activities.filter (fun a => a.admin_id != tid) }

/-- Modelled from the spec: the Persistence Layer delete for an Admin,
applying the cascade declaration of database.py: `activities` carries
`cascade='all, delete-orphan'` and `admin_activities.admin_id` references
admins.user_id with `ondelete='CASCADE'`. -/
def delete_admin (st : DBState) (uid : String) : DBState :=
  { st with
    admins := st.admins.filter (fun a => a.user_id != uid),
    admin_activities := st.admin_activities.filter (fun a => a.admin_id != uid) }

/-- All user rows carrying a given telegram_id. -/
def userRowsFor (st : DBState) (tid : String) : List UserRow :=
  st.users.filter (userHasId tid)

/-- All admin rows carrying a given user_id. -/
def adminRowsFor (st : DBState) (uid : String) : List AdminRow :=
  st.admins.filter (adminHasId uid)

/-- All coin_prices rows carrying a given (coin_id, currency) key. -/
def priceRowsFor (st : DBState) (cid cur : String) : List CoinPriceRow :=
  st.coin_prices.filter (priceHasKey cid cur)

/-- A state with a single inactive admin row for "carol" and its user row,
used to exercise the inactive-admin branch of the authorization check. -/
def stInactive : DBState :=
  { emptyDB with
    users := [defaultUser "carol"],
    admins := [{ user_id := "carol", role := AdminTypes.NORMAL,
                 created_by := "abualmun", is_active := false }] }

/-- A state holding one banned user "evil" and nothing else. -/
def stBanned : DBState :=
  { emptyDB with
    users := [{ telegram_id := "evil", user_type := UserType.BANNED,
                language := "en", preferred_chart_type := "price",
                preferred_timeframe := 30 }] }

/-! ### Generic list lemmas -/

theorem find?_append_some {α : Type} (p : α → Bool) {l1 : List α} (l2 : List α)
    {a : α} (h : l1.find? p = some a) : (l1 ++ l2).find? p = some a := by
  induction l1 with
  | nil => simp [List.find?] at h
  | cons x t ih =>
    rw [List.cons_append]
    cases hx : p x with
    | true => rw [List.find?] at h ⊢; rw [hx] at h ⊢; exact h
    | false =>
      rw [List.find?] at h ⊢
      rw [hx] at h ⊢
      exact ih h

theorem find?_append_none {α : Type} (p : α → Bool) {l1 : List α} (l2 : List α)
    (h : l1.find? p = none) : (l1 ++ l2).find? p = l2.find? p := by
  induction l1 with
  | nil => rfl
  | cons x t ih =>
    rw [List.cons_append]
    cases hx : p x with
    | true => rw [List.find?] at h; rw [hx] at h; cases h
    | false =>
      rw [List.find?] at h ⊢
      rw [hx] at h ⊢
      exact ih h

theorem find?_singleton_pos {α : Type} {p : α → Bool} {a : α} (h : p a = true) :
    [a].find? p = some a := by
  rw [List.find?, h]

/-! ### Basic table lemmas -/

theorem get_user_none_iff (st : DBState) (tid : String) :
    get_user_by_telegram_id st tid = none ↔ userRowsFor st tid = [] := by
  simp [get_user_by_telegram_id, userRowsFor, List.find?_eq_none,
    List.filter_eq_nil_iff]

theorem get_admin_none_iff (st : DBState) (uid : String) :
    get_admin_by_user_id st uid = none ↔ adminRowsFor st uid = [] := by
  simp [get_admin_by_user_id, adminRowsFor, List.find?_eq_none,
    List.filter_eq_nil_iff]

theorem get_admin_isSome_iff (st : DBState) (uid : String) :
    (get_admin_by_user_id st uid).isSome = true ↔ adminRowsFor st uid ≠ [] := by
  rw [Option.isSome_iff_ne_none]
  exact not_congr (get_admin_none_iff st uid)

theorem get_admin_create_admin_self (st : DBState) (n : String)
    (role : Option AdminTypes) (cb : String)
    (h : get_admin_by_user_id st n = none) :
    get_admin_by_user_id (create_admin st n role cb) n =
      some { user_id := n, role := role.getD AdminTypes.NORMAL,
             created_by := cb, is_active := true } := by
  simp only [get_admin_by_user_id, create_admin] at h ⊢
  rw [find?_append_none _ _ h]
  exact find?_singleton_pos (by simp [adminHasId])

/-! ### Bootstrap (`create_first_admins`) lemmas -/

theorem cfa_cons (st : DBState) (n : String) (t : List String) :
    create_first_admins st (n :: t) = create_first_admins (bootstrap_step st n) t := rfl

theorem bootstrap_step_eq_self {st : DBState} {n : String}
    (h : (get_admin_by_user_id st n).isSome = true) : bootstrap_step st n = st := by
  unfold bootstrap_step
  cases hh : get_admin_by_user_id st n with
  | some a => rfl
  | none => rw [hh] at h; simp at h

theorem bootstrap_step_admins (st : DBState) (n : String) :
    (bootstrap_step st n).admins = st.admins ∨
    (bootstrap_step st n).admins = st.admins ++ [masterRow n] := by
  unfold bootstrap_step
  cases hh : get_admin_by_user_id st n with
  | some a => left; rfl
  | none =>
    cases hu : get_user_by_telegram_id st n with
    | some u => right; rfl
    | none => right; rfl

theorem bootstrap_step_users (st : DBState) (n : String) :
    (bootstrap_step st n).users = st.users ∨
    (bootstrap_step st n).users = st.users ++ [defaultUser n] := by
  unfold bootstrap_step
  cases hh : get_admin_by_user_id st n with
  | some a => left; rfl
  | none =>
    cases hu : get_user_by_telegram_id st n with
    | some u => left; rfl
    | none => right; rfl

theorem get_user_bootstrap_step_mono {st : DBState} {tid : String} {u : UserRow}
    (h : get_user_by_telegram_id st tid = some u) (n : String) :
    get_user_by_telegram_id (bootstrap_step st n) tid = some u := by
  rcases bootstrap_step_users st n with he | he <;>
    simp only [get_user_by_telegram_id] at h ⊢ <;> rw [he]
  · exact h
  · exact find?_append_some _ _ h

theorem get_user_bootstrap_mono {st : DBState} {tid : String} {u : UserRow}
    (h : get_user_by_telegram_id st tid = some u) (l : List String) :
    get_user_by_telegram_id (create_first_admins st l) tid = some u := by
  induction l generalizing st with
  | nil => exact h
  | cons n t ih =>
    rw [cfa_cons]
    exact ih (get_user_bootstrap_step_mono h n)

theorem get_admin_isSome_bootstrap_step_mono {st : DBState} {name : String}
    (n : String) (h : (get_admin_by_user_id st name).isSome = true) :
    (get_admin_by_user_id (bootstrap_step st n) name).isSome = true := by
  rcases Option.isSome_iff_exists.mp h with ⟨a, ha⟩
  rcases bootstrap_step_admins st n with he | he <;>
    simp only [get_admin_by_user_id] at ha ⊢ <;> rw [he]
  · rw [ha]; rfl
  · rw [find?_append_some _ _ ha]; rfl

theorem get_admin_isSome_bootstrap_step_self (st : DBState) (n : String) :
    (get_admin_by_user_id (bootstrap_step st n) n).isSome = true := by
  unfold bootstrap_step
  cases hh : get_admin_by_user_id st n with
  | some a => rw [hh]; rfl
  | none =>
    cases hu : get_user_by_telegram_id st n with
    | some u =>
      rw [get_admin_create_admin_self st n (some AdminTypes.MASTER) "abualmun" hh]
      rfl
    | none =>
      have hh2 : get_admin_by_user_id (create_user st n) n = none := hh
      rw [get_admin_create_admin_self (create_user st n) n
        (some AdminTypes.MASTER) "abualmun" hh2]
      rfl

theorem adminRowsFor_bootstrap_step_ne {n name : String} (st : DBState)
    (h : n ≠ name) :
    adminRowsFor (bootstrap_step st n) name = adminRowsFor st name := by
  rcases bootstrap_step_admins st n with he | he <;>
    simp only [adminRowsFor] <;> rw [he]
  rw [List.filter_append]
  have hfalse : adminHasId name (masterRow n) = false := by
    simp only [adminHasId, masterRow, beq_eq_false_iff_ne, ne_eq]
    exact h
  simp [hfalse]

theorem adminRowsFor_bootstrap_step_self {st : DBState} {n : String}
    (h0 : adminRowsFor st n = []) :
    adminRowsFor (bootstrap_step st n) n = [masterRow n] := by
  have hnone : get_admin_by_user_id st n = none := (get_admin_none_iff st n).mpr h0
  simp only [bootstrap_step, hnone]
  cases hu : get_user_by_telegram_id st n <;>
    simp only [hu] <;>
    simp only [adminRowsFor, create_admin, create_user, List.filter_append] at h0 ⊢ <;>
    rw [h0] <;>
    simp [masterRow, List.filter_cons, adminHasId]

theorem adminRowsFor_bootstrap_step_preserve {st : DBState} {name : String}
    (h : adminRowsFor st name ≠ []) (m : String) :
    adminRowsFor (bootstrap_step st m) name = adminRowsFor st name := by
  by_cases hm : m = name
  · subst hm
    rw [bootstrap_step_eq_self ((get_admin_isSome_iff st m).mpr h)]
  · exact adminRowsFor_bootstrap_step_ne st hm

theorem adminRowsFor_fold_preserve {name : String} (l : List String) {st : DBState}
    (h : adminRowsFor st name ≠ []) :
    adminRowsFor (create_first_admins st l) name = adminRowsFor st name := by
  induction l generalizing st with
  | nil => rfl
  | cons n t ih =>
    have h2 := adminRowsFor_bootstrap_step_preserve h n
    rw [cfa_cons, ih (by rw [h2]; exact h), h2]

theorem adminRowsFor_fold_master {name : String} {l : List String} {st : DBState}
    (hmem : name ∈ l) (h0 : adminRowsFor st name = []) :
    adminRowsFor (create_first_admins st l) name = [masterRow name] := by
  induction l generalizing st with
  | nil => cases hmem
  | cons n t ih =>
    by_cases hn : n = name
    · subst hn
      have h1 : adminRowsFor (bootstrap_step st n) n = [masterRow n] :=
        adminRowsFor_bootstrap_step_self h0
      rw [cfa_cons, adminRowsFor_fold_preserve t (by rw [h1]; simp), h1]
    · rcases List.mem_cons.mp hmem with h | h
      · exact absurd h.symm hn
      · rw [cfa_cons]
        exact ih h (by rw [adminRowsFor_bootstrap_step_ne st hn]; exact h0)

theorem adminRowsFor_fold_ne {l : List String} {tid : String} {st : DBState}
    (h : tid ∉ l) :
    adminRowsFor (create_first_admins st l) tid = adminRowsFor st tid := by
  induction l generalizing st with
  | nil => rfl
  | cons n t ih =>
    have hn : n ≠ tid := fun he => h (he ▸ List.mem_cons_self n t)
    rw [cfa_cons, ih (fun hm => h (List.mem_cons_of_mem n hm)),
      adminRowsFor_bootstrap_step_ne st hn]

theorem get_admin_isSome_fold_mono {st : DBState} {name : String}
    (h : (get_admin_by_user_id st name).isSome = true) (l : List String) :
    (get_admin_by_user_id (create_first_admins st l) name).isSome = true := by
  induction l generalizing st with
  | nil => exact h
  | cons n t ih =>
    rw [cfa_cons]
    exact ih (get_admin_isSome_bootstrap_step_mono n h)

theorem fold_all_admins (l : List String) (st : DBState) :
    ∀ name ∈ l,
      (get_admin_by_user_id (create_first_admins st l) name).isSome = true := by
  induction l generalizing st with
  | nil => intro name h; cases h
  | cons n t ih =>
    intro name hmem
    rcases List.mem_cons.mp hmem with h | h
    · subst h
      rw [cfa_cons]
      exact get_admin_isSome_fold_mono (get_admin_isSome_bootstrap_step_self st name) t
    · rw [cfa_cons]
      exact ih (bootstrap_step st n) name h

theorem fold_id_of_all (l : List String) : ∀ st : DBState,
    (∀ name ∈ l, (get_admin_by_user_id st name).isSome = true) →
    create_first_admins st l = st := by
  induction l with
  | nil => intro st h; rfl
  | cons n t ih =>
    intro st h
    rw [cfa_cons, bootstrap_step_eq_self (h n (List.mem_cons_self n t))]
    exact ih st (fun m hm => h m (List.mem_cons_of_mem n hm))

theorem create_first_admins_idem (st : DBState) (l : List String) :
    create_first_admins (create_first_admins st l) l = create_first_admins st l :=
  fold_id_of_all l _ (fold_all_admins l st)

theorem get_user_isSome_bootstrap_step_self {st : DBState} {n : String}
    (h0 : adminRowsFor st n = []) :
    (get_user_by_telegram_id (bootstrap_step st n) n).isSome = true := by
  have hnone : get_admin_by_user_id st n = none := (get_admin_none_iff st n).mpr h0
  simp only [bootstrap_step, hnone]
  cases hu : get_user_by_telegram_id st n with
  | some u =>
    simp only [hu]
    have : get_user_by_telegram_id
        (create_admin st n (some AdminTypes.MASTER) "abualmun") n =
        get_user_by_telegram_id st n := rfl
    rw [this, hu]; rfl
  | none =>
    simp only [hu]
    have : get_user_by_telegram_id
        (create_admin (create_user st n) n (some AdminTypes.MASTER) "abualmun") n =
        get_user_by_telegram_id (create_user st n) n := rfl
    rw [this]
    simp only [get_user_by_telegram_id, create_user] at hu ⊢
    rw [find?_append_none _ _ hu, find?_singleton_pos (by simp [userHasId, defaultUser])]
    rfl

theorem fold_user_ensured {l : List String} {name : String} {st : DBState}
    (hmem : name ∈ l) (h0 : adminRowsFor st name = []) :
    (get_user_by_telegram_id (create_first_admins st l) name).isSome = true := by
  induction l generalizing st with
  | nil => cases hmem
  | cons n t ih =>
    by_cases hn : n = name
    · subst hn
      rw [cfa_cons]
      rcases Option.isSome_iff_exists.mp (get_user_isSome_bootstrap_step_self h0)
        with ⟨u, hu⟩
      rw [get_user_bootstrap_mono hu t]
      rfl
    · rcases List.mem_cons.mp hmem with h | h
      · exact absurd h.symm hn
      · rw [cfa_cons]
        exact ih h (by rw [adminRowsFor_bootstrap_step_ne st hn]; exact h0)

theorem userRowsFor_bootstrap_step_ne {n tid : String} (st : DBState)
    (h : n ≠ tid) :
    userRowsFor (bootstrap_step st n) tid = userRowsFor st tid := by
  rcases bootstrap_step_users st n with he | he <;>
    simp only [userRowsFor] <;> rw [he]
  rw [List.filter_append]
  have hfalse : userHasId tid (defaultUser n) = false := by
    simp only [userHasId, defaultUser, beq_eq_false_iff_ne, ne_eq]
    exact h
  simp [hfalse]

theorem userRowsFor_fold_ne {l : List String} {tid : String} {st : DBState}
    (h : tid ∉ l) :
    userRowsFor (create_first_admins st l) tid = userRowsFor st tid := by
  induction l generalizing st with
  | nil => rfl
  | cons n t ih =>
    have hn : n ≠ tid := fun he => h (he ▸ List.mem_cons_self n t)
    rw [cfa_cons, ih (fun hm => h (List.mem_cons_of_mem n hm)),
      userRowsFor_bootstrap_step_ne st hn]

/-! ### Authorization and handler lemmas -/

theorem find_active_iff (l : List AdminRow) (tid : String)
    (huniq : l.Pairwise (fun a b => a.user_id ≠ b.user_id)) :
    (match l.find? (adminHasId tid) with
     | some a => a.is_active
     | none => false) = true ↔
      ∃ a ∈ l, a.user_id = tid ∧ a.is_active = true := by
  induction l with
  | nil => simp [List.find?]
  | cons x t ih =>
    rcases List.pairwise_cons.mp huniq with ⟨hx, ht⟩
    cases hxid : adminHasId tid x with
    | true =>
      have hxeq : x.user_id = tid := by simpa [adminHasId] using hxid
      rw [List.find?, hxid]
      constructor
      · intro h
        exact ⟨x, List.mem_cons_self x t, hxeq, h⟩
      · rintro ⟨a, ha, haid, hact⟩
        rcases List.mem_cons.mp ha with rfl | hat
        · exact hact
        · exact absurd (hxeq.trans haid.symm) (hx a hat)
    | false =>
      have hxne : x.user_id ≠ tid := by simpa [adminHasId] using hxid
      rw [List.find?, hxid, ih ht]
      constructor
      · rintro ⟨a, ha, h1, h2⟩
        exact ⟨a, List.mem_cons_of_mem x ha, h1, h2⟩
      · rintro ⟨a, ha, h1, h2⟩
        rcases List.mem_cons.mp ha with rfl | hat
        · exact absurd h1 hxne
        · exact ⟨a, hat, h1, h2⟩

theorem admin_reply_of_user_some {st : DBState} {tid : String} {u : UserRow}
    (hu : get_user_by_telegram_id (create_first_admins st bootstrapAdmins) tid
      = some u) :
    (admin_command st tid).reply =
      (if is_authorized (create_first_admins st bootstrapAdmins) tid = true
       then some Reply.adminMenu else some Reply.notAuthorized) := by
  have htid : u.telegram_id = tid := by
    have h1 := List.find?_some hu
    simpa [userHasId] using h1
  simp only [admin_command, hu]
  rw [htid]
  cases ha : get_admin_by_user_id (create_first_admins st bootstrapAdmins) tid with
  | none => simp [is_authorized, ha]
  | some a =>
    cases hact : a.is_active with
    | true => simp [is_authorized, ha, hact]
    | false => simp [is_authorized, ha, hact]

theorem admin_command_no_user {st : DBState} {tid : String}
    (h : get_user_by_telegram_id (create_first_admins st bootstrapAdmins) tid
      = none) :
    admin_command st tid =
      { state := create_user (create_first_admins st bootstrapAdmins) tid,
        reply := none, errorLogged := true } := by
  simp only [admin_command, h]

/-! ### Upsert lemmas -/

theorem filter_map_replace {α : Type} (q : α → Bool) (c : α) (hq : q c = true)
    (l : List α) :
    (l.map (fun r => if q r then c else r)).filter q =
      (l.filter q).map (fun _ => c) := by
  induction l with
  | nil => rfl
  | cons x t ih =>
    cases hx : q x with
    | true => simp [List.filter_cons, List.map_cons, hx, hq, ih]
    | false => simp [List.filter_cons, List.map_cons, hx, ih]

theorem filter_map_replace_other {α : Type} (q q2 : α → Bool) (c : α)
    (hq2c : q2 c = false) (himp : ∀ r, q r = true → q2 r = false)
    (l : List α) :
    (l.map (fun r => if q r then c else r)).filter q2 = l.filter q2 := by
  induction l with
  | nil => rfl
  | cons x t ih =>
    cases hx : q x with
    | true => simp [List.filter_cons, List.map_cons, hx, hq2c, himp x hx, ih]
    | false => simp [List.filter_cons, List.map_cons, hx, ih]

theorem priceRowsFor_upsert_key (st : DBState) (cp : CoinPriceRow)
    (hinv : (priceRowsFor st cp.coin_id cp.currency).length ≤ 1) :
    priceRowsFor (upsert_coin_price st cp) cp.coin_id cp.currency = [cp] := by
  have hself : priceHasKey cp.coin_id cp.currency cp = true := by
    simp [priceHasKey]
  cases hany : st.coin_prices.any (priceHasKey cp.coin_id cp.currency) with
  | false =>
    have hnil : st.coin_prices.filter (priceHasKey cp.coin_id cp.currency) = [] := by
      rw [List.filter_eq_nil_iff]
      intro x hx hpx
      rw [List.any_eq_true.mpr ⟨x, hx, hpx⟩] at hany
      cases hany
    simp only [upsert_coin_price, hany, Bool.false_eq_true, if_false,
      priceRowsFor, List.filter_append]
    rw [hnil]
    simp [hself]
  | true =>
    simp only [upsert_coin_price, hany, if_true, priceRowsFor]
    rw [filter_map_replace _ _ hself]
    have h1 : (st.coin_prices.filter (priceHasKey cp.coin_id cp.currency)).length
        = 1 := by
      have hinv2 : (st.coin_prices.filter
          (priceHasKey cp.coin_id cp.currency)).length ≤ 1 := hinv
      rcases List.any_eq_true.mp hany with ⟨x, hx, hpx⟩
      have hmem : x ∈ st.coin_prices.filter (priceHasKey cp.coin_id cp.currency) :=
        List.mem_filter.mpr ⟨hx, hpx⟩
      have hpos := List.length_pos.mpr (List.ne_nil_of_mem hmem)
      omega
    rcases List.length_eq_one.mp h1 with ⟨a, ha⟩
    rw [ha]
    rfl

theorem priceRowsFor_upsert_other (st : DBState) (cp : CoinPriceRow)
    {c cur : String} (hne : ¬(cp.coin_id = c ∧ cp.currency = cur)) :
    priceRowsFor (upsert_coin_price st cp) c cur = priceRowsFor st c cur := by
  have hcpf : priceHasKey c cur cp = false := by
    simp only [priceHasKey, Bool.and_eq_false_iff, beq_eq_false_iff_ne, ne_eq]
    tauto
  have himp : ∀ r, priceHasKey cp.coin_id cp.currency r = true →
      priceHasKey c cur r = false := by
    intro r hr
    simp only [priceHasKey, Bool.and_eq_true, beq_iff_eq] at hr
    simp only [priceHasKey, hr.1, hr.2]
    exact hcpf
  cases hany : st.coin_prices.any (priceHasKey cp.coin_id cp.currency) with
  | false =>
    simp only [upsert_coin_price, hany, Bool.false_eq_true, if_false,
      priceRowsFor, List.filter_append]
    simp [hcpf]
  | true =>
    simp only [upsert_coin_price, hany, if_true, priceRowsFor]
    exact filter_map_replace_other _ _ _ hcpf himp st.coin_prices

theorem upsert_preserves_unique (st : DBState) (cp : CoinPriceRow)
    (hinv : ∀ c cur, (priceRowsFor st c cur).length ≤ 1) (c cur : String) :
    (priceRowsFor (upsert_coin_price st cp) c cur).length ≤ 1 := by
  by_cases hk : cp.coin_id = c ∧ cp.currency = cur
  · rcases hk with ⟨h1, h2⟩
    subst h1
    subst h2
    rw [priceRowsFor_upsert_key st cp (hinv _ _)]
    simp
  · rw [priceRowsFor_upsert_other st cp hk]
    exact hinv c cur

/-! ### Claim theorems -/

/-- C1 counterexample: for identity "ghost" on a fresh store, no Admin row
exists at the time `admin_command` runs its authorization check and
`is_authorized` is false, yet the command does not reply not-authorized:
it sends no reply at all, because the handler never re-fetched the
freshly created User row and its stale None lookup raises inside the
swallowing `except`. -/
theorem C1_counterexample :
    adminRowsFor (create_first_admins emptyDB bootstrapAdmins) "ghost" = []
    ∧ is_authorized (create_first_admins emptyDB bootstrapAdmins) "ghost" = false
    ∧ (admin_command emptyDB "ghost").reply ≠ some Reply.notAuthorized := by
  decide

/-- C1 (amended): `is_authorized(identity)` is true iff an Admin row exists
for the identity with `is_active = true` (under the schema's unique
admins.user_id invariant); it is false for a missing or inactive admin
row. Provided the identity has a User row at authorization time, the
admin command then replies not-authorized instead of the admin menu in
those cases (an identity with no User row receives no reply at all). -/
theorem C1_is_authorized (st : DBState) (tid : String)
    (huniq : st.admins.Pairwise (fun a b => a.user_id ≠ b.user_id)) :
    (is_authorized st tid = true ↔
      ∃ a ∈ st.admins, a.user_id = tid ∧ a.is_active = true)
    ∧ (∀ u : UserRow,
        get_user_by_telegram_id (create_first_admins st bootstrapAdmins) tid
          = some u →
        is_authorized (create_first_admins st bootstrapAdmins) tid = false →
        (admin_command st tid).reply = some Reply.notAuthorized) := by
  constructor
  · exact find_active_iff st.admins tid huniq
  · intro u hu hauth
    rw [admin_reply_of_user_some hu, hauth]
    simp

/-- C1 witness: the amended theorem applied to the inactive-admin state for
identity "carol". -/
theorem C1_is_authorized_witness :
    (is_authorized stInactive "carol" = true ↔
      ∃ a ∈ stInactive.admins, a.user_id = "carol" ∧ a.is_active = true)
    ∧ (∀ u : UserRow,
        get_user_by_telegram_id (create_first_admins stInactive bootstrapAdmins)
          "carol" = some u →
        is_authorized (create_first_admins stInactive bootstrapAdmins) "carol"
          = false →
        (admin_command stInactive "carol").reply = some Reply.notAuthorized) :=
  C1_is_authorized stInactive "carol" (by simp [stInactive])

/-- C2: bootstrap is idempotent (a second run over the same list is a
no-op), produces exactly one Admin row for each identity of the list that
had none, that row being MASTER / active / created_by "abualmun", and a
User row exists for the identity afterwards. -/
theorem C2_bootstrap_idempotent (st : DBState) (l : List String) (name : String)
    (hmem : name ∈ l) (h0 : adminRowsFor st name = []) :
    create_first_admins (create_first_admins st l) l = create_first_admins st l
    ∧ adminRowsFor (create_first_admins st l) name = [masterRow name]
    ∧ (masterRow name).role = AdminTypes.MASTER
    ∧ (masterRow name).is_active = true
    ∧ (get_user_by_telegram_id (create_first_admins st l) name).isSome = true :=
  ⟨create_first_admins_idem st l, adminRowsFor_fold_master hmem h0, rfl, rfl,
    fold_user_ensured hmem h0⟩

/-- C2 witness: bootstrap of ["a", "b", "c"] from the empty store, observed
at identity "b". -/
theorem C2_bootstrap_idempotent_witness :
    create_first_admins (create_first_admins emptyDB ["a", "b", "c"])
        ["a", "b", "c"]
      = create_first_admins emptyDB ["a", "b", "c"]
    ∧ adminRowsFor (create_first_admins emptyDB ["a", "b", "c"]) "b"
      = [masterRow "b"]
    ∧ (masterRow "b").role = AdminTypes.MASTER
    ∧ (masterRow "b").is_active = true
    ∧ (get_user_by_telegram_id (create_first_admins emptyDB ["a", "b", "c"]) "b").isSome
      = true :=
  C2_bootstrap_idempotent emptyDB ["a", "b", "c"] "b" (by decide) rfl

/-- C3: for an identity with no User row, `start_command` creates exactly
one User row, with the schema defaults GUEST / "en" / 30, and replies with
the welcome text and main menu, not a denial. -/
theorem C3_start_first_contact (st : DBState) (tid : String)
    (h : get_user_by_telegram_id st tid = none) :
    (start_command st tid).state.users = st.users ++ [defaultUser tid]
    ∧ userRowsFor (start_command st tid).state tid = [defaultUser tid]
    ∧ (defaultUser tid).user_type = UserType.GUEST
    ∧ (defaultUser tid).language = "en"
    ∧ (defaultUser tid).preferred_timeframe = 30
    ∧ (start_command st tid).reply = some Reply.welcomeMenu := by
  have h2 : get_user_by_telegram_id (create_user st tid) tid
      = some (defaultUser tid) := by
    simp only [get_user_by_telegram_id, create_user] at h ⊢
    rw [find?_append_none _ _ h]
    exact find?_singleton_pos (by simp [userHasId, defaultUser])
  have hcmd : start_command st tid = start_reply (create_user st tid) (defaultUser tid) := by
    simp only [start_command, h, h2]
  have hrep : start_reply (create_user st tid) (defaultUser tid) =
      { state := create_user st tid, reply := some Reply.welcomeMenu,
        errorLogged := false } := by
    simp [start_reply, defaultUser]
  rw [hcmd, hrep]
  refine ⟨rfl, ?_, rfl, rfl, rfl, rfl⟩
  have h3 : List.filter (userHasId tid) st.users = [] :=
    (get_user_none_iff st tid).mp h
  simp only [userRowsFor, create_user, List.filter_append]
  rw [h3]
  simp [userHasId, defaultUser]

/-- C3 witness: first contact of "alice" on the empty store. -/
theorem C3_start_first_contact_witness :
    (start_command emptyDB "alice").state.users
      = emptyDB.users ++ [defaultUser "alice"]
    ∧ userRowsFor (start_command emptyDB "alice").state "alice"
      = [defaultUser "alice"]
    ∧ (defaultUser "alice").user_type = UserType.GUEST
    ∧ (defaultUser "alice").language = "en"
    ∧ (defaultUser "alice").preferred_timeframe = 30
    ∧ (start_command emptyDB "alice").reply = some Reply.welcomeMenu :=
  C3_start_first_contact emptyDB "alice" rfl

/-- C4 counterexample: identity "evil" is stored BANNED, yet its admin
command does not reply with the no-permission message (it replies
not-authorized) and it does perform database writes (the bootstrap
creates rows), so the ban check is neither universal over feature
commands nor prior to every stateful action. -/
theorem C4_counterexample :
    get_user_by_telegram_id stBanned "evil"
      = some { telegram_id := "evil", user_type := UserType.BANNED,
               language := "en", preferred_chart_type := "price",
               preferred_timeframe := 30 }
    ∧ (admin_command stBanned "evil").reply = some Reply.notAuthorized
    ∧ (admin_command stBanned "evil").reply ≠ some Reply.noPermission
    ∧ (admin_command stBanned "evil").state ≠ stBanned := by
  decide

/-- C4 (amended): for a stored BANNED user, `start_command` replies only
with the no-permission message and performs no database write; but
`admin_command` performs no ban check: its reply is decided solely by
admin authorization (not-authorized without an active Admin row, the
admin menu with one), and it performs its bootstrap writes regardless. -/
theorem C4_ban_checks (st : DBState) (tid : String) (u : UserRow)
    (hu : get_user_by_telegram_id st tid = some u)
    (hb : u.user_type = UserType.BANNED) :
    start_command st tid =
      { state := st, reply := some Reply.noPermission, errorLogged := false }
    ∧ (is_authorized (create_first_admins st bootstrapAdmins) tid = false →
        (admin_command st tid).reply = some Reply.notAuthorized)
    ∧ (is_authorized (create_first_admins st bootstrapAdmins) tid = true →
        (admin_command st tid).reply = some Reply.adminMenu) := by
  refine ⟨?_, ?_, ?_⟩
  · simp [start_command, hu, start_reply, hb]
  · intro hauth
    rw [admin_reply_of_user_some (get_user_bootstrap_mono hu bootstrapAdmins),
      hauth]
    simp
  · intro hauth
    rw [admin_reply_of_user_some (get_user_bootstrap_mono hu bootstrapAdmins),
      hauth]
    simp

/-- C4 witness: the amended theorem applied to the banned user "evil". -/
theorem C4_ban_checks_witness :
    start_command stBanned "evil" =
      { state := stBanned, reply := some Reply.noPermission,
        errorLogged := false }
    ∧ (is_authorized (create_first_admins stBanned bootstrapAdmins) "evil"
          = false →
        (admin_command stBanned "evil").reply = some Reply.notAuthorized)
    ∧ (is_authorized (create_first_admins stBanned bootstrapAdmins) "evil"
          = true →
        (admin_command stBanned "evil").reply = some Reply.adminMenu) :=
  C4_ban_checks stBanned "evil"
    { telegram_id := "evil", user_type := UserType.BANNED, language := "en",
      preferred_chart_type := "price", preferred_timeframe := 30 }
    (by decide) rfl

/-- C5: evaluating `admin_command` at the failing input — identity "random"
with no User row, on a fresh store. The code creates the User row but
keeps the stale None lookup, raises on subscripting it, swallows the
exception and sends no reply; no Admin row is created for "random",
but the promised "not authorized" reply never happens. -/
theorem C5_first_contact_admin_no_reply :
    (admin_command emptyDB "random").reply = none
    ∧ (admin_command emptyDB "random").errorLogged = true
    ∧ adminRowsFor (admin_command emptyDB "random").state "random" = [] := by
  decide

/-- C6 counterexample: an internal error occurs while handling the admin
command of "someone" (the handler catches and prints a TypeError), yet
the user receives no reply at all instead of a generic failure reply. -/
theorem C6_counterexample :
    (admin_command emptyDB "someone").errorLogged = true
    ∧ (admin_command emptyDB "someone").reply = none := by
  decide

/-- C6 (amended): when an internal error occurs while handling the admin
command, the bare `except` catches it, so the conversation task does not
crash, and prints it, so it is not dropped without trace; but the user
receives no reply at all rather than a generic failure reply. -/
theorem C6_error_swallowed (st : DBState) (tid : String)
    (h : (admin_command st tid).errorLogged = true) :
    (admin_command st tid).reply = none := by
  cases hu : get_user_by_telegram_id (create_first_admins st bootstrapAdmins) tid with
  | none => simp only [admin_command, hu]
  | some u =>
    exfalso
    have hfalse : (admin_command st tid).errorLogged = false := by
      simp only [admin_command, hu]
      cases ha : get_admin_by_user_id (create_first_admins st bootstrapAdmins)
          u.telegram_id with
      | none => rfl
      | some a => cases hact : a.is_active <;> simp [hact]
    rw [hfalse] at h
    cases h

/-- C6 witness: the amended theorem applied at the error-producing input. -/
theorem C6_error_swallowed_witness :
    (admin_command emptyDB "nobody").reply = none :=
  C6_error_swallowed emptyDB "nobody" (by decide)

/-- C7: the deletes apply the declared cascades: deleting a Coin removes
exactly the CoinPrice, OHLC and TrendingCoin rows referencing it (and no
other rows of those tables), deleting a User removes exactly its
UserActivity rows, deleting an Admin removes exactly its AdminActivity
rows. -/
theorem C7_cascade_delete (st : DBState) (cid tid uid : String) :
    (∀ p : CoinPriceRow, p ∈ (delete_coin st cid).coin_prices ↔
      p ∈ st.coin_prices ∧ p.coin_id ≠ cid)
    ∧ (∀ o : OHLCRow, o ∈ (delete_coin st cid).ohlc ↔
        o ∈ st.ohlc ∧ o.coin_id ≠ cid)
    ∧ (∀ t : TrendingCoinRow, t ∈ (delete_coin st cid).trending_coins ↔
        t ∈ st.trending_coins ∧ t.coin_id ≠ cid)
    ∧ (∀ c : CoinRow, c ∈ (delete_coin st cid).coins ↔
        c ∈ st.coins ∧ c.id ≠ cid)
    ∧ (∀ a : UserActivityRow, a ∈ (delete_user st tid).user_activities ↔
        a ∈ st.user_activities ∧ a.user_id ≠ tid)
    ∧ (∀ a : AdminActivityRow, a ∈ (delete_admin st uid).admin_activities ↔
        a ∈ st.admin_activities ∧ a.admin_id ≠ uid) := by
  refine ⟨?_, ?_, ?_, ?_, ?_, ?_⟩ <;> intro x <;>
    simp [delete_coin, delete_user, delete_admin, List.mem_filter, bne_iff_ne]

/-- C8: upserting a CoinPrice twice for the same (coin_id, currency) key
leaves exactly one row for that key, holding the second payload (the
existing row is updated, no duplicate error), and the at-most-one-row-
per-key invariant is preserved at every state. -/
theorem C8_coin_price_upsert (st : DBState) (cp cp2 : CoinPriceRow)
    (hkey : cp2.coin_id = cp.coin_id ∧ cp2.currency = cp.currency)
    (hinv : ∀ c cur, (priceRowsFor st c cur).length ≤ 1) :
    priceRowsFor (upsert_coin_price (upsert_coin_price st cp) cp2)
        cp.coin_id cp.currency = [cp2]
    ∧ (∀ c cur,
        (priceRowsFor (upsert_coin_price (upsert_coin_price st cp) cp2) c cur).length
          ≤ 1) := by
  have hinv1 : ∀ c cur, (priceRowsFor (upsert_coin_price st cp) c cur).length ≤ 1 :=
    fun c cur => upsert_preserves_unique st cp hinv c cur
  constructor
  · rw [← hkey.1, ← hkey.2]
    exact priceRowsFor_upsert_key (upsert_coin_price st cp) cp2 (hinv1 _ _)
  · exact fun c cur => upsert_preserves_unique _ cp2 hinv1 c cur

/-- C8 witness: a double upsert of the (btc, usd) key on the empty store. -/
theorem C8_coin_price_upsert_witness :
    priceRowsFor
        (upsert_coin_price
          (upsert_coin_price emptyDB
            { coin_id := "btc", currency := "usd", price := 1, market_cap := 2,
              volume_24h := 3, price_change_24h := 4 })
          { coin_id := "btc", currency := "usd", price := 9, market_cap := 8,
            volume_24h := 7, price_change_24h := 6 })
        "btc" "usd"
      = [{ coin_id := "btc", currency := "usd", price := 9, market_cap := 8,
           volume_24h := 7, price_change_24h := 6 }]
    ∧ (∀ c cur,
        (priceRowsFor
          (upsert_coin_price
            (upsert_coin_price emptyDB
              { coin_id := "btc", currency := "usd", price := 1, market_cap := 2,
                volume_24h := 3, price_change_24h := 4 })
            { coin_id := "btc", currency := "usd", price := 9, market_cap := 8,
              volume_24h := 7, price_change_24h := 6 })
          c cur).length ≤ 1) :=
  C8_coin_price_upsert emptyDB
    { coin_id := "btc", currency := "usd", price := 1, market_cap := 2,
      volume_24h := 3, price_change_24h := 4 }
    { coin_id := "btc", currency := "usd", price := 9, market_cap := 8,
      volume_24h := 7, price_change_24h := 6 }
    ⟨rfl, rfl⟩ (fun _ _ => Nat.zero_le 1)

/-- C9 counterexample: caller "stranger" has no User row; the admin command
does create its User row as a side effect, but the caller does not
receive the not-authorized reply the claim describes — no reply is sent
at all. -/
theorem C9_counterexample :
    get_user_by_telegram_id emptyDB "stranger" = none
    ∧ userRowsFor (admin_command emptyDB "stranger").state "stranger"
      = [defaultUser "stranger"]
    ∧ is_authorized (create_first_admins emptyDB bootstrapAdmins) "stranger"
      = false
    ∧ (admin_command emptyDB "stranger").reply ≠ some Reply.notAuthorized := by
  decide

/-- C9 (amended): for every admin-command caller with no existing User row
whose identity is not in the bootstrap list, exactly one User row with
the guest defaults is created as a side effect, the caller receives no
reply at all (the handler's stale lookup raises and the exception is
swallowed), and the Admin table is unchanged for that identity. -/
theorem C9_admin_side_effect (st : DBState) (tid : String)
    (h : get_user_by_telegram_id st tid = none) (hnb : tid ∉ bootstrapAdmins) :
    userRowsFor (admin_command st tid).state tid = [defaultUser tid]
    ∧ (admin_command st tid).reply = none
    ∧ adminRowsFor (admin_command st tid).state tid = adminRowsFor st tid := by
  have hfold : get_user_by_telegram_id (create_first_admins st bootstrapAdmins) tid
      = none := by
    rw [get_user_none_iff, userRowsFor_fold_ne hnb]
    exact (get_user_none_iff st tid).mp h
  rw [admin_command_no_user hfold]
  refine ⟨?_, rfl, ?_⟩
  · have h3 : List.filter (userHasId tid)
        (create_first_admins st bootstrapAdmins).users = [] :=
      (get_user_none_iff (create_first_admins st bootstrapAdmins) tid).mp hfold
    simp only [userRowsFor, create_user, List.filter_append]
    rw [h3]
    simp [userHasId, defaultUser]
  · have h4 : adminRowsFor
        (create_user (create_first_admins st bootstrapAdmins) tid) tid
        = adminRowsFor (create_first_admins st bootstrapAdmins) tid := rfl
    rw [h4, adminRowsFor_fold_ne hnb]

/-- C9 witness: the amended theorem applied to first contact of "visitor". -/
theorem C9_admin_side_effect_witness :
    userRowsFor (admin_command emptyDB "visitor").state "visitor"
      = [defaultUser "visitor"]
    ∧ (admin_command emptyDB "visitor").reply = none
    ∧ adminRowsFor (admin_command emptyDB "visitor").state "visitor"
      = adminRowsFor emptyDB "visitor" :=
  C9_admin_side_effect emptyDB "visitor" rfl (by decide)

/-- C10: `create_admin` without an explicit role yields role NORMAL and
is_active true (the schema defaults); with the explicit MASTER role that
`create_first_admins` passes, the created row is MASTER and active, which
is why bootstrap-created admins are MASTER. -/
theorem C10_admin_defaults (st : DBState) (uid cb : String) :
    (create_admin st uid none cb).admins =
      st.admins ++ [{ user_id := uid, role := AdminTypes.NORMAL,
                      created_by := cb, is_active := true }]
    ∧ (create_admin st uid (some AdminTypes.MASTER) cb).admins =
      st.admins ++ [{ user_id := uid, role := AdminTypes.MASTER,
                      created_by := cb, is_active := true }]
    ∧ (∀ name : String, name ∈ bootstrapAdmins → adminRowsFor st name = [] →
        adminRowsFor (create_first_admins st bootstrapAdmins) name =
          [{ user_id := name, role := AdminTypes.MASTER,
             created_by := "abualmun", is_active := true }]) := by
  refine ⟨rfl, rfl, fun name hmem h0 => ?_⟩
  rw [adminRowsFor_fold_master hmem h0]
  rfl

/-- C10 witness: the defaults at a concrete insertion, and the bootstrap
row of "hooibi". -/
theorem C10_admin_defaults_witness :
    (create_admin emptyDB "x" none "y").admins =
      emptyDB.admins ++ [{ user_id := "x", role := AdminTypes.NORMAL,
                           created_by := "y", is_active := true }]
    ∧ (create_admin emptyDB "x" (some AdminTypes.MASTER) "y").admins =
      emptyDB.admins ++ [{ user_id := "x", role := AdminTypes.MASTER,
                           created_by := "y", is_active := true }]
    ∧ adminRowsFor (create_first_admins emptyDB bootstrapAdmins) "hooibi" =
      [{ user_id := "hooibi", role := AdminTypes.MASTER,
         created_by := "abualmun", is_active := true }] := by
  have h := C10_admin_defaults emptyDB "x" "y"
  exact ⟨h.1, h.2.1, h.2.2 "hooibi" (by decide) rfl⟩

end CryptoBot
